import Mathlib

/-!
# Verification of the Senate filing scraper (`scraper.py`, `constants.py`)

A shallow embedding of the scraper's data model and operations:

* the wire constants and default search parameters (`constants.py`);
* filing-format and filing-type classification (`parse_filing_format`,
  `parse_filing_type`);
* the anchor-extraction regex `FILING_URL_PATTERN` and the row parser
  `parse_filing_results`;
* `datetime.strptime(_, "%m/%d/%Y")` as implemented by CPython's `_strptime`;
* the `Filing` dispatch hierarchy and content download;
* the `SenateFilingScraper` pagination/negotiation state machine, with the
  HTTP session abstracted to an environment (responses are modelled by the
  data the scraper extracts from them: status codes, the CSRF token hidden
  input, and the JSON `data` rows).

Python strings are modelled as Lean `String`s; the case mapping and the
whitespace set used by `str.lower`/`str.strip` are restricted to ASCII,
which is exact on every string the scraper's protocol produces.
-/

set_option autoImplicit false

namespace Stocker

/-! ### Python string primitives -/

/-- ASCII lower-casing of one character, as `str.lower` acts on ASCII. -/
def toLowerAscii (c : Char) : Char :=
  if 'A' ≤ c ∧ c ≤ 'Z' then Char.ofNat (c.toNat + 32) else c

/-- `s.lower()` restricted to ASCII. -/
def pyLower (s : String) : String :=
  String.mk (s.data.map toLowerAscii)

/-- Whether `small` occurs at the start of `big` (character-wise). -/
def listStartsWith : List Char → List Char → Bool
  | [], _ => true
  | _ :: _, [] => false
  | a :: as, b :: bs => a = b && listStartsWith as bs

/-- `needle in hay` for Python strings: substring containment. -/
def containsSub (needle : List Char) : List Char → Bool
  | [] => listStartsWith needle []
  | c :: rest => listStartsWith needle (c :: rest) || containsSub needle rest

/-- `hay.__contains__(needle)`, i.e. `needle in hay` in Python. -/
def pyContains (hay needle : String) : Bool :=
  containsSub needle.data hay.data

/-- The ASCII characters removed by `str.strip()`. -/
def isPySpace (c : Char) : Bool :=
  c = ' ' ∨ c = '\t' ∨ c = '\n' ∨ c = '\r' ∨ c = '\x0b' ∨ c = '\x0c'

/-- `s.strip()` restricted to ASCII whitespace. -/
def pyStrip (s : String) : String :=
  String.mk (((s.data.dropWhile isPySpace).reverse.dropWhile isPySpace).reverse)

/-- `", ".join(l)`. -/
def joinCommaSpace : List String → String
  | [] => ""
  | [s] => s
  | s :: t :: rest => s ++ ", " ++ joinCommaSpace (t :: rest)

/-! ### `constants.py` -/

/-- `constants.BASE_URL`. -/
def BASE_URL : String := "https://efdsearch.senate.gov"

/-- `constants.ROOT_URL`. -/
def ROOT_URL : String := "https://efdsearch.senate.gov/search/home/"

/-- `constants.SEARCH_URL`. -/
def SEARCH_URL : String := "https://efdsearch.senate.gov/search/report/data/"

/-- `constants.FilingType`. -/
inductive FilingType where
  | UNKNOWN
  | ANNUAL_REPORT
  | PERIODIC_TRANSACTION_REPORT
deriving DecidableEq, Repr

/-- `constants.REPORT_TYPE_TO_ID`: a dict with no entry for `UNKNOWN`,
modelled as a partial lookup. -/
def REPORT_TYPE_TO_ID : FilingType → Option Nat
  | .ANNUAL_REPORT => some 7
  | .PERIODIC_TRANSACTION_REPORT => some 11
  | .UNKNOWN => none

/-! ### Data model (`scraper.py`) -/

/-- `scraper.FilingFormat`. -/
inductive FilingFormat where
  | HTML
  | PDF
  | UNKNOWN
deriving DecidableEq, Repr

/-- A calendar date as produced by `datetime.strptime(_, "%m/%d/%Y")`
(the time-of-day component is always midnight and is omitted). -/
structure PyDate where
  year : Nat
  month : Nat
  day : Nat
deriving DecidableEq, Repr

/-- A `datetime.datetime` value as used by `FilingSearchFilters`. -/
structure PyDateTime where
  year : Nat
  month : Nat
  day : Nat
  hour : Nat
  minute : Nat
  second : Nat
deriving DecidableEq, Repr

/-- `scraper.FilingResult` (a frozen dataclass). -/
structure FilingResult where
  first_name : String
  last_name : String
  office_name : String
  filing_date : PyDate
  filing_type : FilingType
  filing_url : String
  filing_format : FilingFormat
deriving DecidableEq, Repr

/-- `scraper.FilingSearchFilters`. -/
structure FilingSearchFilters where
  filing_types : Option (List FilingType) := none
  start_date : Option PyDateTime := none
  end_date : Option PyDateTime := none
deriving DecidableEq, Repr

/-- Zero-pad a numeral to two digits, as the `%m`, `%d`, `%H`, `%M`, `%S`
directives of `strftime` do. -/
def pad2 (n : Nat) : String :=
  if n < 10 then "0" ++ toString n else toString n

/-- `d.strftime("%m/%d/%Y %H:%M:%S")` (`%Y` is unpadded, as on glibc). -/
def strftimeFull (d : PyDateTime) : String :=
  pad2 d.month ++ "/" ++ pad2 d.day ++ "/" ++ toString d.year ++ " " ++
    pad2 d.hour ++ ":" ++ pad2 d.minute ++ ":" ++ pad2 d.second

/-- The dict returned by `FilingSearchFilters.to_search_params`: each key is
present or absent. -/
structure SearchParamsPatch where
  report_types : Option String := none
  submitted_start_date : Option String := none
  submitted_end_date : Option String := none
deriving DecidableEq, Repr

/-- `FilingSearchFilters.to_search_params`.  The list comprehension
`[str(REPORT_TYPE_TO_ID[ft]) for ft in self.filing_types if ft != UNKNOWN]`
is the `filterMap`; `if self.filing_types:` / `if report_types:` are the
Python truthiness (non-`None` and non-empty) tests. -/
def FilingSearchFilters.to_search_params (f : FilingSearchFilters) : SearchParamsPatch :=
  let rt : Option String :=
    match f.filing_types with
    | none => none
    | some l =>
        if l.isEmpty then none
        else
          let report_types :=
            l.filterMap fun ft =>
              if ft = FilingType.UNKNOWN then none
              else (REPORT_TYPE_TO_ID ft).map toString
          if report_types.isEmpty then none
          else some ("[" ++ joinCommaSpace report_types ++ "]")
  { report_types := rt
    submitted_start_date := f.start_date.map strftimeFull
    submitted_end_date := f.end_date.map strftimeFull }

/-! ### Format and type classification (`scraper.py` lines 54–70) -/

/-- `scraper.parse_filing_format`. -/
def parse_filing_format (filing_url : String) : FilingFormat :=
  if pyContains (pyLower filing_url) "ptr" || pyContains (pyLower filing_url) "annual" then
    FilingFormat.HTML
  else if pyContains (pyLower filing_url) "paper" then
    FilingFormat.PDF
  else
    FilingFormat.UNKNOWN

/-- `scraper.parse_filing_type`. -/
def parse_filing_type (type_str : String) : FilingType :=
  if pyContains (pyLower type_str) "annual report" then
    FilingType.ANNUAL_REPORT
  else if pyContains (pyLower type_str) "periodic transaction report" then
    FilingType.PERIODIC_TRANSACTION_REPORT
  else
    FilingType.UNKNOWN

/-! ### The regex `FILING_URL_PATTERN` (`scraper.py` line 73)

The compiled pattern `<a[^>]*href="([^"]+)"[^>]*>(.*?)</a>`, used with
`FILING_URL_PATTERN.search`.
The pattern is embedded as a backtracking matcher specialised to its own
shape: each greedy piece (`[^>]*`, `[^"]+`) tries the longest consumption
first and backtracks to shorter ones, the lazy piece (`(.*?)`, where `.`
excludes a newline without `re.DOTALL`) tries the shortest first, and
`search` tries start positions left to right — exactly the order CPython's
`re` explores, so the first overall success and its two capture groups
coincide with those of `re.search`. -/

/-- Match a literal character sequence at the head, returning the rest. -/
def matchLit : List Char → List Char → Option (List Char)
  | [], s => some s
  | _ :: _, [] => none
  | c :: cs, d :: ds => if c = d then matchLit cs ds else none

/-- First `some` produced by `f` along a list of backtracking candidates. -/
def firstSome {α β : Type} (f : α → Option β) : List α → Option β
  | [] => none
  | a :: as =>
    match f a with
    | some b => some b
    | none => firstSome f as

/-- Backtracking candidates for a greedy `[^x]*`: the remainders after
consuming `k` admissible characters, for `k` from longest to `0`. -/
def greedyStarRemainders (p : Char → Bool) (s : List Char) : List (List Char) :=
  ((List.range ((s.takeWhile p).length + 1)).reverse).map fun k => s.drop k

/-- Backtracking candidates for a greedy capturing `([^x]+)`: pairs of
(consumed, remainder) with at least one character, longest first. -/
def greedyPlusCaptures (p : Char → Bool) (s : List Char) : List (List Char × List Char) :=
  ((List.range (s.takeWhile p).length).reverse).map fun k => (s.take (k + 1), s.drop (k + 1))

/-- Backtracking candidates for a lazy capturing `(.*?)` (`.` matches any
character but a newline): pairs of (consumed, remainder), shortest first. -/
def lazyStarCaptures (s : List Char) : List (List Char × List Char) :=
  (List.range ((s.takeWhile fun c => c ≠ '\n').length + 1)).map fun k => (s.take k, s.drop k)

/-- Try to match `<a[^>]*href="([^"]+)"[^>]*>(.*?)</a>` anchored at the head
of `s`, returning the two capture groups of the first success in
backtracking order. -/
def matchAnchorAt (s : List Char) : Option (List Char × List Char) :=
  (matchLit "<a".data s).bind fun s1 =>
    firstSome (fun s2 =>
        (matchLit "href=\"".data s2).bind fun s3 =>
          firstSome (fun (cap1, s4) =>
              (matchLit "\"".data s4).bind fun s5 =>
                firstSome (fun s6 =>
                    (matchLit ">".data s6).bind fun s7 =>
                      firstSome (fun (cap2, s8) =>
                          (matchLit "</a>".data s8).map fun _ => (cap1, cap2))
                        (lazyStarCaptures s7))
                  (greedyStarRemainders (fun c => c ≠ '>') s5))
            (greedyPlusCaptures (fun c => c ≠ '"') s3))
      (greedyStarRemainders (fun c => c ≠ '>') s1)

/-- `FILING_URL_PATTERN.search(s)`: try each start position left to right;
on success `group(1)` is the href and `group(2)` the anchor text. -/
def regexSearchAnchor : List Char → Option (List Char × List Char)
  | [] => none
  | c :: rest =>
    match matchAnchorAt (c :: rest) with
    | some r => some r
    | none => regexSearchAnchor rest

/-! ### `datetime.strptime(s, "%m/%d/%Y")`

CPython's `_strptime` compiles the format to the regex
`(?P<m>1[0-2]|0[1-9]|[1-9])/(?P<d>3[01]|[12]\d|0[1-9]|[1-9])/(?P<Y>\d\d\d\d)`,
requires it to consume the whole string, and then builds a
`datetime.date(Y, m, d)`, which raises `ValueError` when the day is
invalid for that month (or the year is 0). -/

/-- Whether a character is an ASCII digit. -/
def isDigitChar (c : Char) : Bool := '0' ≤ c ∧ c ≤ '9'

/-- Numeric value of an ASCII digit. -/
def digitVal (c : Char) : Nat := c.toNat - '0'.toNat

/-- The `%m` directive `1[0-2]|0[1-9]|[1-9]`, alternatives in order.  The
two-character alternatives are committed: whenever one of them matches, the
one-character fallback consumes a character the two-character form already
accepted, so the follow-up literal `/` can never resurrect it. -/
def parseMonthDirective : List Char → Option (Nat × List Char)
  | [] => none
  | c1 :: rest1 =>
    if c1 = '1' then
      match rest1 with
      | c2 :: rest2 =>
        if c2 = '0' ∨ c2 = '1' ∨ c2 = '2' then some (10 + digitVal c2, rest2)
        else some (1, rest1)
      | [] => some (1, rest1)
    else if c1 = '0' then
      match rest1 with
      | c2 :: rest2 =>
        if '1' ≤ c2 ∧ c2 ≤ '9' then some (digitVal c2, rest2) else none
      | [] => none
    else if '2' ≤ c1 ∧ c1 ≤ '9' then some (digitVal c1, rest1)
    else none

/-- The `%d` directive `3[01]|[12]\d|0[1-9]|[1-9]`, alternatives in order. -/
def parseDayDirective : List Char → Option (Nat × List Char)
  | [] => none
  | c1 :: rest1 =>
    if c1 = '3' then
      match rest1 with
      | c2 :: rest2 =>
        if c2 = '0' ∨ c2 = '1' then some (30 + digitVal c2, rest2)
        else some (3, rest1)
      | [] => some (3, rest1)
    else if c1 = '1' ∨ c1 = '2' then
      match rest1 with
      | c2 :: rest2 =>
        if isDigitChar c2 then some (10 * digitVal c1 + digitVal c2, rest2)
        else some (digitVal c1, rest1)
      | [] => some (digitVal c1, rest1)
    else if c1 = '0' then
      match rest1 with
      | c2 :: rest2 =>
        if '1' ≤ c2 ∧ c2 ≤ '9' then some (digitVal c2, rest2) else none
      | [] => none
    else if '4' ≤ c1 ∧ c1 ≤ '9' then some (digitVal c1, rest1)
    else none

/-- The `%Y` directive `\d\d\d\d`: exactly four digits. -/
def parseYearDirective : List Char → Option (Nat × List Char)
  | a :: b :: c :: d :: rest =>
    if isDigitChar a ∧ isDigitChar b ∧ isDigitChar c ∧ isDigitChar d then
      some (1000 * digitVal a + 100 * digitVal b + 10 * digitVal c + digitVal d, rest)
    else none
  | _ => none

/-- Gregorian leap-year rule, as `datetime.date` validates days. -/
def isLeapYear (y : Nat) : Bool :=
  (y % 4 = 0 ∧ y % 100 ≠ 0) ∨ y % 400 = 0

/-- Days in a month, as `datetime.date` validates days. -/
def daysInMonth (y m : Nat) : Nat :=
  if m = 2 then (if isLeapYear y then 29 else 28)
  else if m = 4 ∨ m = 6 ∨ m = 9 ∨ m = 11 then 30
  else 31

/-- `datetime.strptime(s, "%m/%d/%Y")`, returning `none` where Python
raises `ValueError` (regex failure, unconverted trailing data, or an
invalid calendar date). -/
def strptimeMDY (s : String) : Option PyDate :=
  match parseMonthDirective s.data with
  | none => none
  | some (m, r1) =>
    match r1 with
    | '/' :: r2 =>
      match parseDayDirective r2 with
      | none => none
      | some (d, r3) =>
        match r3 with
        | '/' :: r4 =>
          match parseYearDirective r4 with
          | none => none
          | some (y, r5) =>
            if r5 = [] ∧ 1 ≤ y ∧ d ≤ daysInMonth y m then some ⟨y, m, d⟩
            else none
        | _ => none
    | _ => none

/-! ### Row parsing (`parse_filing_results`, `scraper.py` lines 72–124) -/

/-- `scraper.FIRST_NAME_IDX`. -/
def FIRST_NAME_IDX : Nat := 0

/-- `scraper.LAST_NAME_IDX`. -/
def LAST_NAME_IDX : Nat := 1

/-- `scraper.OFFICE_NAME_IDX`. -/
def OFFICE_NAME_IDX : Nat := 2

/-- `scraper.FILING_LINK_IDX`. -/
def FILING_LINK_IDX : Nat := 3

/-- `scraper.FILING_DATE_IDX`. -/
def FILING_DATE_IDX : Nat := 4

/-- One iteration of the `parse_filing_results` loop body: `none` models a
`continue` (row skipped with a warning), `some` a `FilingResult` appended.
Indexing uses `getD`; every access is guarded by the length test the code
performs first. -/
def parseRow (row : List String) : Option FilingResult :=
  if row.length ≤ FILING_DATE_IDX then none
  else
    match regexSearchAnchor (row.getD FILING_LINK_IDX "").data with
    | none => none
    | some (urlChars, typeChars) =>
      match strptimeMDY (row.getD FILING_DATE_IDX "") with
      | none => none
      | some filing_date =>
        some
          { first_name := pyStrip (row.getD FIRST_NAME_IDX "")
            last_name := pyStrip (row.getD LAST_NAME_IDX "")
            office_name := pyStrip (row.getD OFFICE_NAME_IDX "")
            filing_date := filing_date
            filing_type := parse_filing_type (String.mk typeChars)
            filing_url := BASE_URL ++ String.mk urlChars
            filing_format := parse_filing_format (String.mk urlChars) }

/-- `scraper.parse_filing_results`: the loop with per-row `continue`s is the
order-preserving `filterMap` of the loop body. -/
def parse_filing_results (results : List (List String)) : List FilingResult :=
  results.filterMap parseRow

/-! ### Content download (`Filing` hierarchy, `scraper.py` lines 126–203)

The two concrete `Filing` subclasses with `Filing.from_result` dispatch.
An HTTP GET is abstracted to a function from URL to (status code, body
bytes); the second component of the result of `get_content` records the
list of URLs actually requested, so "no network call" is expressible. -/

/-- The error taxonomy: which exception a scraper operation raises.
`missingToken` is the failure of the BeautifulSoup lookup of the
`csrfmiddlewaretoken` hidden input, subscripted for its value, on a
document without that input (the NegotiationError of the spec),
`rootFetchFailed` / `searchFailed` are the explicit `raise Exception(...)`
paths, and `fetchFailed` is `response.raise_for_status()`. -/
inductive ScrapeError where
  | rootFetchFailed (status : Nat)
  | missingToken
  | searchFailed (status : Nat)
  | fetchFailed (status : Nat)
deriving DecidableEq, Repr

/-- An HTTP GET, abstracted: URL to (status code, body bytes). -/
def HttpGet : Type := String → Nat × List UInt8

/-- `FilingHTML.get_content`: GET the filing URL, `raise_for_status` on a
4xx/5xx code, otherwise return the raw body; also reports the URLs
requested. -/
def filingHTMLGetContent (get : HttpGet) (url : String) :
    Except ScrapeError (List UInt8) × List String :=
  let (status, body) := get url
  if 400 ≤ status ∧ status < 600 then (.error (.fetchFailed status), [url])
  else (.ok body, [url])

/-- The concrete `Filing` subclasses as a closed sum. -/
inductive Filing where
  | filingHTML (filing_result : FilingResult)
  | filingPDF (filing_result : FilingResult)
deriving DecidableEq, Repr

/-- `Filing.from_result`: dispatch on the filing format; the `UNKNOWN`
branch logs a warning and defaults to `FilingHTML`. -/
def Filing.from_result (filing_result : FilingResult) : Filing :=
  match filing_result.filing_format with
  | .HTML => .filingHTML filing_result
  | .PDF => .filingPDF filing_result
  | .UNKNOWN => .filingHTML filing_result

/-- `Filing.get_content` of each subclass: `FilingPDF.get_content` returns
`b""` without touching the session; `FilingHTML.get_content` downloads. -/
def Filing.get_content (f : Filing) (get : HttpGet) :
    Except ScrapeError (List UInt8) × List String :=
  match f with
  | .filingPDF _ => (.ok [], [])
  | .filingHTML r => filingHTMLGetContent get r.filing_url

/-- `SenateFilingScraper.download_filing`. -/
def download_filing (get : HttpGet) (filing_result : FilingResult) :
    Except ScrapeError (List UInt8) × List String :=
  (Filing.from_result filing_result).get_content get

/-! ### The scraper state machine (`SenateFilingScraper`, `scraper.py` lines 205–250)

`self.search_params` is modelled by the entries the embedded code ever
reads or writes: the integer cursor `draw`/`start` and the string entries
`length`, `report_types`, `filer_types`, `submitted_start_date`,
`submitted_end_date` that `FilingSearchFilters.to_search_params` may
override.  The remaining entries of `constants.SENATE_FILING_SEARCH_PARAMS`
(the fixed DataTables column/order/search descriptors and the empty
name/state/office filters) are string constants that no code path reads or
writes, so they are elided from the state.

The HTTP session is abstracted to a `ScrapeEnv`: each response is
represented by exactly the data the scraper extracts from it — the status
code of the root GET, the value of the `csrfmiddlewaretoken` hidden input
of the landing page and of the agreement-POST response (`none` when the
document lacks that input, where `soup.select_one(...)["value"]` raises),
and, for each search POST, the response status and the JSON body's `data`
rows as a function of the `(draw, start)` cursor sent. -/

/-- `SenateFilingScraper.PAGINATION_SIZE`. -/
def PAGINATION_SIZE : Nat := 25

/-- The mutable `self.search_params` dict (the entries the code reads or
writes). -/
structure SearchParams where
  draw : Nat
  start : Nat
  length : String
  report_types : String
  filer_types : String
  submitted_start_date : String
  submitted_end_date : String
deriving DecidableEq, Repr

/-- `constants.SENATE_FILING_SEARCH_PARAMS` (its modelled entries); the
`report_types` default is the join over every non-`UNKNOWN` `FilingType`
in declaration order, `"[7, 11]"`. -/
def SENATE_FILING_SEARCH_PARAMS : SearchParams where
  draw := 1
  start := 0
  length := "25"
  report_types := "[" ++ joinCommaSpace
    ([FilingType.UNKNOWN, FilingType.ANNUAL_REPORT, FilingType.PERIODIC_TRANSACTION_REPORT].filterMap
      fun ft => if ft = FilingType.UNKNOWN then none else (REPORT_TYPE_TO_ID ft).map toString) ++ "]"
  filer_types := "[1]"
  submitted_start_date := "01/01/2012 00:00:00"
  submitted_end_date := "12/31/2023 23:59:59"

/-- `self.search_params.update(filters.to_search_params())`: a dict update
overrides exactly the keys present in the patch. -/
def SearchParams.updateWith (p : SearchParams) (q : SearchParamsPatch) : SearchParams :=
  { p with
    report_types := q.report_types.getD p.report_types
    submitted_start_date := q.submitted_start_date.getD p.submitted_start_date
    submitted_end_date := q.submitted_end_date.getD p.submitted_end_date }

/-- The scraper instance state: `self.search_params` (copied from the
constants in `__init__`) and `self.csrf_token` (initially `None`). -/
structure SenateFilingScraper where
  search_params : SearchParams
  csrf_token : Option String
deriving DecidableEq, Repr

/-- `SenateFilingScraper.__init__`. -/
def SenateFilingScraper.mkNew : SenateFilingScraper where
  search_params := SENATE_FILING_SEARCH_PARAMS
  csrf_token := none

/-- The environment a run of `scrape_filing_urls` interacts with. -/
structure ScrapeEnv where
  root_status : Nat
  landing_token : Option String
  agreement_token : Option String
  search_status : Nat → Nat → Nat
  search_data : Nat → Nat → List (List String)

/-- Result of the `while True:` search loop. -/
structure LoopOut where
  params : SearchParams
  error : Option ScrapeError
  results : List FilingResult
  requests : List SearchParams
  finished : Bool
deriving Repr

/-- The `while True:` pagination loop, with fuel: POST the current params
(logged in `requests`), raise on a non-200 status, stop on an empty `data`
array, otherwise accumulate the parsed rows and advance the cursor by
`(draw + 1, start + PAGINATION_SIZE)`.  `finished = false` marks fuel
exhaustion (the run shown is a prefix of a longer one). -/
def searchLoop (env : ScrapeEnv) : Nat → SearchParams → LoopOut
  | 0, p => { params := p, error := none, results := [], requests := [], finished := false }
  | fuel + 1, p =>
    if env.search_status p.draw p.start ≠ 200 then
      { params := p, error := some (.searchFailed (env.search_status p.draw p.start)),
        results := [], requests := [p], finished := true }
    else
      let d := env.search_data p.draw p.start
      if d.isEmpty then
        { params := p, error := none, results := [], requests := [p], finished := true }
      else
        let rest := searchLoop env fuel
          { p with draw := p.draw + 1, start := p.start + PAGINATION_SIZE }
        { params := rest.params, error := rest.error,
          results := parse_filing_results d ++ rest.results,
          requests := p :: rest.requests, finished := rest.finished }

/-- The observable outcome of one `scrape_filing_urls` call: the mutated
instance, the returned list or raised error, and the search requests
issued. -/
structure ScrapeOutcome where
  scraper : SenateFilingScraper
  result : Except ScrapeError (List FilingResult)
  searchRequests : List SearchParams
  finished : Bool
deriving Repr

/-- `SenateFilingScraper.scrape_filing_urls`: overlay the filters onto
`self.search_params` (in place), GET the root page (raise on non-200),
extract the landing CSRF token, POST the agreement and extract the rotated
token (either extraction raises on a document lacking the hidden input),
then run the pagination loop.  All mutations of `self` are reflected in
the returned `scraper`. -/
def scrape_filing_urls (sc : SenateFilingScraper) (filters : Option FilingSearchFilters)
    (env : ScrapeEnv) (fuel : Nat) : ScrapeOutcome :=
  let p :=
    match filters with
    | some f => sc.search_params.updateWith f.to_search_params
    | none => sc.search_params
  if env.root_status ≠ 200 then
    { scraper := { sc with search_params := p },
      result := .error (.rootFetchFailed env.root_status),
      searchRequests := [], finished := true }
  else
    match env.landing_token with
    | none =>
      { scraper := { sc with search_params := p },
        result := .error .missingToken, searchRequests := [], finished := true }
    | some tok =>
      match env.agreement_token with
      | none =>
        { scraper := { search_params := p, csrf_token := some tok },
          result := .error .missingToken, searchRequests := [], finished := true }
      | some tok2 =>
        let lo := searchLoop env fuel p
        { scraper := { search_params := lo.params, csrf_token := some tok2 },
          result := match lo.error with
            | some e => .error e
            | none => .ok lo.results,
          searchRequests := lo.requests, finished := lo.finished }

/-! ### Concrete fixtures used by witnesses and counterexamples -/

/-- The row of the end-to-end scenario. -/
def janeRow : List String :=
  ["Jane", "Doe", "Senator",
   "<a href=\"/search/view/ptr/abc123/\">Periodic Transaction Report</a>",
   "01/15/2023"]

/-- The record the end-to-end scenario row parses to. -/
def janeResult : FilingResult where
  first_name := "Jane"
  last_name := "Doe"
  office_name := "Senator"
  filing_date := ⟨2023, 1, 15⟩
  filing_type := .PERIODIC_TRANSACTION_REPORT
  filing_url := "https://efdsearch.senate.gov/search/view/ptr/abc123/"
  filing_format := .HTML

/-- A row whose name cells carry surrounding whitespace. -/
def paddedRow : List String :=
  [" Jane ", "Doe\t", " Senator",
   "<a href=\"/search/view/ptr/abc123/\">Periodic Transaction Report</a>",
   "01/15/2023"]

/-- A paper-scan (PDF-format) record. -/
def paperResult : FilingResult :=
  { janeResult with
    filing_url := BASE_URL ++ "/search/view/paper/xyz/"
    filing_format := .PDF }

/-- A record whose format is `UNKNOWN`. -/
def unknownFormatResult : FilingResult :=
  { janeResult with filing_format := .UNKNOWN }

/-- A session whose every GET answers 200 with a two-byte body. -/
def getOk : HttpGet := fun _ => (200, [72, 73])

/-- A server with successful negotiation that returns three non-empty
pages (at `start` 0, 25, 50) and then an empty page. -/
def env3 : ScrapeEnv where
  root_status := 200
  landing_token := some "tok1"
  agreement_token := some "tok2"
  search_status := fun _ _ => 200
  search_data := fun _ s => if s < 75 then [["x"]] else []

/-- A server with successful negotiation that returns one non-empty page
(at `start` 0) and then an empty page. -/
def env1 : ScrapeEnv where
  root_status := 200
  landing_token := some "tok1"
  agreement_token := some "tok2"
  search_status := fun _ _ => 200
  search_data := fun _ s => if s = 0 then [["x"]] else []

/-- A server whose landing page lacks the `csrfmiddlewaretoken` input. -/
def envNoToken : ScrapeEnv :=
  { env1 with landing_token := none }

/-- Filters selecting only periodic transaction reports. -/
def filtersPTR : FilingSearchFilters :=
  { filing_types := some [.PERIODIC_TRANSACTION_REPORT] }

/-- Filters selecting periodic transaction reports over calendar 2023. -/
def filtersFull : FilingSearchFilters where
  filing_types := some [.PERIODIC_TRANSACTION_REPORT]
  start_date := some ⟨2023, 1, 1, 0, 0, 0⟩
  end_date := some ⟨2023, 12, 31, 23, 59, 59⟩

/-! ## Claims -/

/-- C6: for every anchor href string, containing `"ptr"` or `"annual"`
(case-insensitively) resolves the content format to structured-document
(`HTML`); otherwise containing `"paper"` resolves it to paper-scan
(`PDF`); otherwise it resolves to `UNKNOWN`. -/
theorem C6_format_classification (s : String) :
    ((pyContains (pyLower s) "ptr" = true ∨ pyContains (pyLower s) "annual" = true) →
      parse_filing_format s = FilingFormat.HTML) ∧
    (pyContains (pyLower s) "ptr" = false → pyContains (pyLower s) "annual" = false →
      pyContains (pyLower s) "paper" = true →
      parse_filing_format s = FilingFormat.PDF) ∧
    (pyContains (pyLower s) "ptr" = false → pyContains (pyLower s) "annual" = false →
      pyContains (pyLower s) "paper" = false →
      parse_filing_format s = FilingFormat.UNKNOWN) := by
  unfold parse_filing_format
  refine ⟨fun h => ?_, fun h1 h2 h3 => ?_, fun h1 h2 h3 => ?_⟩
  · rcases h with h | h <;> simp [h]
  · simp [h1, h2, h3]
  · simp [h1, h2, h3]

/-- Witness for C6 at three concrete hrefs, one per branch. -/
theorem C6_format_classification_witness :
    parse_filing_format "/search/view/ptr/abc123/" = FilingFormat.HTML ∧
    parse_filing_format "/search/view/PAPER/xyz/" = FilingFormat.PDF ∧
    parse_filing_format "/search/view/other/xyz/" = FilingFormat.UNKNOWN :=
  ⟨(C6_format_classification _).1 (Or.inl (by decide)),
   (C6_format_classification _).2.1 (by decide) (by decide) (by decide),
   (C6_format_classification _).2.2 (by decide) (by decide) (by decide)⟩

/-- C7: for every anchor text string, containing `"annual report"` (any
case) parses the filing category to `ANNUAL_REPORT`; otherwise containing
`"periodic transaction report"` parses it to
`PERIODIC_TRANSACTION_REPORT`; otherwise to `UNKNOWN`. -/
theorem C7_type_classification (s : String) :
    (pyContains (pyLower s) "annual report" = true →
      parse_filing_type s = FilingType.ANNUAL_REPORT) ∧
    (pyContains (pyLower s) "annual report" = false →
      pyContains (pyLower s) "periodic transaction report" = true →
      parse_filing_type s = FilingType.PERIODIC_TRANSACTION_REPORT) ∧
    (pyContains (pyLower s) "annual report" = false →
      pyContains (pyLower s) "periodic transaction report" = false →
      parse_filing_type s = FilingType.UNKNOWN) := by
  unfold parse_filing_type
  refine ⟨fun h => ?_, fun h1 h2 => ?_, fun h1 h2 => ?_⟩
  · simp [h]
  · simp [h1, h2]
  · simp [h1, h2]

/-- Witness for C7 at three concrete anchor texts, one per branch. -/
theorem C7_type_classification_witness :
    parse_filing_type "Annual Report for CY 2020" = FilingType.ANNUAL_REPORT ∧
    parse_filing_type "Periodic Transaction Report" = FilingType.PERIODIC_TRANSACTION_REPORT ∧
    parse_filing_type "Extension Notice" = FilingType.UNKNOWN :=
  ⟨(C7_type_classification _).1 (by decide),
   (C7_type_classification _).2.1 (by decide) (by decide),
   (C7_type_classification _).2.2 (by decide) (by decide)⟩

/-- The two `REPORT_TYPE_TO_ID`-filtering comprehensions coincide: filtering
out `UNKNOWN` before the dict lookup equals mapping the partial lookup. -/
theorem filterMap_report_type_ids (l : List FilingType) :
    (l.filterMap fun ft =>
      if ft = FilingType.UNKNOWN then none else (REPORT_TYPE_TO_ID ft).map toString) =
    l.filterMap fun ft => (REPORT_TYPE_TO_ID ft).map toString := by
  induction l with
  | nil => rfl
  | cons a l ih =>
    cases a
    · exact ih
    · exact congrArg (List.cons "7") ih
    · exact congrArg (List.cons "11") ih

/-- C9: `to_search_params` emits `report_types` exactly when categories are
supplied (with exactly the numeric IDs of the given categories, bracketed
and comma-joined), emits each date bound formatted `MM/DD/YYYY HH:MM:SS`
exactly when supplied, and emits nothing for an absent field. -/
theorem C9_to_search_params (f : FilingSearchFilters) :
    (f.filing_types = none → f.to_search_params.report_types = none) ∧
    (∀ l, f.filing_types = some l →
      (l.filterMap fun ft => (REPORT_TYPE_TO_ID ft).map toString) ≠ [] →
      f.to_search_params.report_types =
        some ("[" ++
          joinCommaSpace (l.filterMap fun ft => (REPORT_TYPE_TO_ID ft).map toString) ++ "]")) ∧
    (f.start_date = none → f.to_search_params.submitted_start_date = none) ∧
    (∀ d, f.start_date = some d →
      f.to_search_params.submitted_start_date = some (strftimeFull d)) ∧
    (f.end_date = none → f.to_search_params.submitted_end_date = none) ∧
    (∀ d, f.end_date = some d →
      f.to_search_params.submitted_end_date = some (strftimeFull d)) := by
  unfold FilingSearchFilters.to_search_params
  refine ⟨fun h => ?_, fun l hl hne => ?_, fun h => ?_, fun d h => ?_, fun h => ?_,
    fun d h => ?_⟩
  · simp [h]
  · have hempty : l.isEmpty = false := by
      cases l with
      | nil => exact absurd (by rfl) hne
      | cons a l => rfl
    simp [hl, hempty, filterMap_report_type_ids, hne]
  · simp [h]
  · simp [h]
  · simp [h]
  · simp [h]

/-- Witness for C9 at the round-trip example: periodic-transaction category
with a 2023 date range. -/
theorem C9_to_search_params_witness :
    filtersFull.to_search_params.report_types = some "[11]" ∧
    filtersFull.to_search_params.submitted_start_date = some "01/01/2023 00:00:00" ∧
    filtersFull.to_search_params.submitted_end_date = some "12/31/2023 23:59:59" :=
  ⟨((C9_to_search_params filtersFull).2.1 [.PERIODIC_TRANSACTION_REPORT] rfl
      (by decide)).trans (by decide),
   ((C9_to_search_params filtersFull).2.2.2.1 ⟨2023, 1, 1, 0, 0, 0⟩ rfl).trans (by decide),
   ((C9_to_search_params filtersFull).2.2.2.2.2 ⟨2023, 12, 31, 23, 59, 59⟩ rfl).trans
     (by decide)⟩

/-- C10: every record a row parses to carries the row's index-0/1/2 cells
with surrounding whitespace stripped. -/
theorem C10_name_fields_stripped (row : List String) (r : FilingResult)
    (h : parseRow row = some r) :
    r.first_name = pyStrip (row.getD FIRST_NAME_IDX "") ∧
    r.last_name = pyStrip (row.getD LAST_NAME_IDX "") ∧
    r.office_name = pyStrip (row.getD OFFICE_NAME_IDX "") := by
  unfold parseRow at h
  split at h
  · simp at h
  · split at h
    · simp at h
    · split at h
      · simp at h
      · injection h with h
        subst h
        exact ⟨rfl, rfl, rfl⟩

/-- Witness for C10 at a row with padded name cells, which parses to the
same record as the unpadded row. -/
theorem C10_name_fields_stripped_witness :
    janeResult.first_name = pyStrip (paddedRow.getD FIRST_NAME_IDX "") ∧
    janeResult.last_name = pyStrip (paddedRow.getD LAST_NAME_IDX "") ∧
    janeResult.office_name = pyStrip (paddedRow.getD OFFICE_NAME_IDX "") :=
  C10_name_fields_stripped paddedRow janeResult (by decide)

/-- C4: content fetching for a paper-scan (`PDF`) record returns the empty
byte string and requests no URL; for an `UNKNOWN`-format record it
dispatches to the structured-document (`FilingHTML`) strategy, a GET of the
record's URL returning the raw body. -/
theorem C4_content_dispatch (r : FilingResult) (get : HttpGet) :
    (r.filing_format = FilingFormat.PDF →
      download_filing get r = ((Except.ok [] : Except ScrapeError (List UInt8)), [])) ∧
    (r.filing_format = FilingFormat.UNKNOWN →
      Filing.from_result r = Filing.filingHTML r ∧
      download_filing get r = filingHTMLGetContent get r.filing_url) := by
  constructor
  · intro h
    unfold download_filing Filing.from_result
    rw [h]
    rfl
  · intro h
    unfold download_filing Filing.from_result
    rw [h]
    exact ⟨rfl, rfl⟩

/-- Witness for C4 at a paper-scan record and an unknown-format record. -/
theorem C4_content_dispatch_witness :
    download_filing getOk paperResult = ((Except.ok [] : Except ScrapeError (List UInt8)), []) ∧
    Filing.from_result unknownFormatResult = Filing.filingHTML unknownFormatResult ∧
    download_filing getOk unknownFormatResult =
      filingHTMLGetContent getOk unknownFormatResult.filing_url :=
  ⟨(C4_content_dispatch paperResult getOk).1 rfl,
   ((C4_content_dispatch unknownFormatResult getOk).2 rfl).1,
   ((C4_content_dispatch unknownFormatResult getOk).2 rfl).2⟩

/-- C3: the row parser is total (it returns a value on every list of rows
of strings, raising nothing), and a row with fewer than 5 fields, a row
whose index-3 cell does not match the anchor pattern, or a row whose
index-4 date fails `MM/DD/YYYY` parsing is skipped while the surrounding
rows are parsed exactly as if it were absent. -/
theorem C3_bad_rows_skipped (xs ys : List (List String)) (row : List String)
    (h : row.length ≤ FILING_DATE_IDX ∨
      regexSearchAnchor (row.getD FILING_LINK_IDX "").data = none ∨
      strptimeMDY (row.getD FILING_DATE_IDX "") = none) :
    parseRow row = none ∧
    parse_filing_results (xs ++ row :: ys) =
      parse_filing_results xs ++ parse_filing_results ys := by
  have hrow : parseRow row = none := by
    unfold parseRow
    rcases h with h | h | h
    · simp [h]
    · split
      · rfl
      · rw [h]
    · split
      · rfl
      · split
        · rfl
        · rw [h]
  refine ⟨hrow, ?_⟩
  unfold parse_filing_results
  rw [List.filterMap_append, List.filterMap_cons, hrow]

/-- Witness for C3: a one-field row between two good rows is skipped and
the good rows still parse. -/
theorem C3_bad_rows_skipped_witness :
    parseRow ["x"] = none ∧
    parse_filing_results ([janeRow] ++ ["x"] :: [paddedRow]) =
      parse_filing_results [janeRow] ++ parse_filing_results [paddedRow] :=
  C3_bad_rows_skipped [janeRow] [paddedRow] ["x"] (Or.inl (by decide))

/-- C8: every parsed record's URL is the portal base origin prefixed to
the anchor href of the row's index-3 cell and its date is the row's
index-4 cell read as `MM/DD/YYYY`; and the end-to-end scenario row parses
to exactly the expected record (category periodic-transaction, format
structured-document, date 2023-01-15, URL base origin +
`/search/view/ptr/abc123/`). -/
theorem C8_row_parse_end_to_end :
    (∀ row r, parseRow row = some r →
      ∃ url text,
        regexSearchAnchor (row.getD FILING_LINK_IDX "").data = some (url, text) ∧
        r.filing_url = BASE_URL ++ String.mk url ∧
        strptimeMDY (row.getD FILING_DATE_IDX "") = some r.filing_date ∧
        r.filing_type = parse_filing_type (String.mk text) ∧
        r.filing_format = parse_filing_format (String.mk url)) ∧
    parseRow janeRow = some janeResult := by
  constructor
  · intro row r h
    unfold parseRow at h
    split at h
    · simp at h
    · split at h
      · simp at h
      · rename_i url text heq
        split at h
        · simp at h
        · rename_i d hd
          injection h with h
          subst h
          exact ⟨url, text, heq, rfl, hd, rfl, rfl⟩
  · decide

/-- Witness for C8: the universal part instantiated at the end-to-end
scenario row, with its hypothesis discharged by the concrete part. -/
theorem C8_row_parse_end_to_end_witness :
    ∃ url text,
      regexSearchAnchor (janeRow.getD FILING_LINK_IDX "").data = some (url, text) ∧
      janeResult.filing_url = BASE_URL ++ String.mk url ∧
      strptimeMDY (janeRow.getD FILING_DATE_IDX "") = some janeResult.filing_date ∧
      janeResult.filing_type = parse_filing_type (String.mk text) ∧
      janeResult.filing_format = parse_filing_format (String.mk url) :=
  C8_row_parse_end_to_end.1 janeRow janeResult C8_row_parse_end_to_end.2

/-- C2: when the landing page (or the agreement-POST response) lacks the
`csrfmiddlewaretoken` hidden input, `scrape_filing_urls` fails with the
missing-token negotiation error and issues no request to the search
endpoint. -/
theorem C2_missing_token_aborts (sc : SenateFilingScraper)
    (filters : Option FilingSearchFilters) (env : ScrapeEnv) (fuel : Nat)
    (hroot : env.root_status = 200)
    (h : env.landing_token = none ∨ env.agreement_token = none) :
    (scrape_filing_urls sc filters env fuel).result = .error .missingToken ∧
    (scrape_filing_urls sc filters env fuel).searchRequests = [] := by
  unfold scrape_filing_urls
  rw [hroot]
  rcases h with h | h
  · rw [h]
    exact ⟨rfl, rfl⟩
  · cases hl : env.landing_token with
    | none => exact ⟨rfl, rfl⟩
    | some tok =>
      rw [h]
      exact ⟨rfl, rfl⟩

/-- Witness for C2 at a server whose landing page lacks the token. -/
theorem C2_missing_token_aborts_witness :
    (scrape_filing_urls SenateFilingScraper.mkNew none envNoToken 10).result =
      .error .missingToken ∧
    (scrape_filing_urls SenateFilingScraper.mkNew none envNoToken 10).searchRequests = [] :=
  C2_missing_token_aborts SenateFilingScraper.mkNew none envNoToken 10 rfl (Or.inl rfl)

/-- Peeling the first cursor off the arithmetic cursor trajectory. -/
theorem range_map_cursor (dr st ps n : Nat) :
    ((List.range (n + 1)).map fun k => (dr + k, st + ps * k)) =
      (dr, st) :: ((List.range n).map fun k => (dr + 1 + k, st + ps + ps * k)) := by
  rw [List.range_succ_eq_map, List.map_cons, List.map_map]
  refine congrArg₂ List.cons (by simp) (List.map_congr_left ?_)
  intro k _
  have e2 : st + ps * (k + 1) = st + ps + ps * k := by ring
  simp [Function.comp, e2, Nat.add_assoc, Nat.add_comm 1 k]

/-- The pagination loop under a server that answers 200 everywhere,
returns non-empty `data` for the first `n` cursor positions along the
trajectory and empty `data` at the `n`-th: with enough fuel it issues
exactly the `n + 1` requests whose cursors advance by
`(draw + 1, start + PAGINATION_SIZE)` each repetition, stops at the first
empty page, and raises no error. -/
theorem searchLoop_run (env : ScrapeEnv)
    (hstatus : ∀ d s, env.search_status d s = 200) :
    ∀ (n fuel : Nat) (p : SearchParams),
      (∀ k, k < n → env.search_data (p.draw + k) (p.start + PAGINATION_SIZE * k) ≠ []) →
      env.search_data (p.draw + n) (p.start + PAGINATION_SIZE * n) = [] →
      n < fuel →
      ((searchLoop env fuel p).requests.map fun q => (q.draw, q.start)) =
        ((List.range (n + 1)).map fun k => (p.draw + k, p.start + PAGINATION_SIZE * k)) ∧
      (searchLoop env fuel p).finished = true ∧
      (searchLoop env fuel p).error = none := by
  intro n
  induction n with
  | zero =>
    intro fuel p hne hend hfuel
    cases fuel with
    | zero => omega
    | succ f =>
      have hend0 : env.search_data p.draw p.start = [] := by simpa using hend
      have hempty : (env.search_data p.draw p.start).isEmpty = true := by
        rw [hend0]
        rfl
      simp [searchLoop, hstatus p.draw p.start, hempty, List.range_succ]
  | succ n ih =>
    intro fuel p hne hend hfuel
    cases fuel with
    | zero => omega
    | succ f =>
      have hne0 : env.search_data p.draw p.start ≠ [] := by
        simpa using hne 0 (Nat.succ_pos n)
      have hempty : (env.search_data p.draw p.start).isEmpty = false := by
        cases hd : env.search_data p.draw p.start with
        | nil => exact absurd hd hne0
        | cons a l => rfl
      have hih := ih f { p with draw := p.draw + 1, start := p.start + PAGINATION_SIZE }
        (by
          intro k hk
          have e1 : p.draw + 1 + k = p.draw + (k + 1) := by omega
          have e2 : p.start + PAGINATION_SIZE + PAGINATION_SIZE * k =
              p.start + PAGINATION_SIZE * (k + 1) := by ring
          simp only [e1, e2]
          exact hne (k + 1) (by omega))
        (by
          have e1 : p.draw + 1 + n = p.draw + (n + 1) := by omega
          have e2 : p.start + PAGINATION_SIZE + PAGINATION_SIZE * n =
              p.start + PAGINATION_SIZE * (n + 1) := by ring
          simp only [e1, e2]
          exact hend)
        (by omega)
      obtain ⟨h1, h2, h3⟩ := hih
      have h1' : ((searchLoop env f
            { p with draw := p.draw + 1, start := p.start + PAGINATION_SIZE }).requests.map
              fun q => (q.draw, q.start)) =
          ((List.range (n + 1)).map fun k =>
            (p.draw + 1 + k, p.start + PAGINATION_SIZE + PAGINATION_SIZE * k)) := by
        simpa using h1
      refine ⟨?_, ?_, ?_⟩
      · simp only [searchLoop, hstatus p.draw p.start, hempty, ne_eq,
          not_true_eq_false, if_false, Bool.false_eq_true, List.map_cons]
        rw [range_map_cursor, h1']
      · simpa [searchLoop, hstatus p.draw p.start, hempty] using h2
      · simpa [searchLoop, hstatus p.draw p.start, hempty] using h3

/-- C1: a run of the paginator (on a fresh scraper) against a server that
returns `n` non-empty `data` pages followed by an empty one terminates
exactly on the first empty page, issuing exactly `n + 1` search requests
whose cursors advance by `(draw + 1, start + PAGINATION_SIZE)` before each
non-terminal repetition: the cursors sent are `(1 + k, 25 * k)` for
`k = 0, ..., n`. -/
theorem C1_pagination_trajectory (env : ScrapeEnv) (n fuel : Nat)
    (hroot : env.root_status = 200)
    (hlt : ∃ t, env.landing_token = some t)
    (hat : ∃ t, env.agreement_token = some t)
    (hstatus : ∀ d s, env.search_status d s = 200)
    (hne : ∀ k, k < n → env.search_data (1 + k) (PAGINATION_SIZE * k) ≠ [])
    (hend : env.search_data (1 + n) (PAGINATION_SIZE * n) = [])
    (hfuel : n < fuel) :
    ((scrape_filing_urls SenateFilingScraper.mkNew none env fuel).searchRequests.map
        fun q => (q.draw, q.start)) =
      ((List.range (n + 1)).map fun k => (1 + k, PAGINATION_SIZE * k)) ∧
    (scrape_filing_urls SenateFilingScraper.mkNew none env fuel).searchRequests.length =
      n + 1 ∧
    (scrape_filing_urls SenateFilingScraper.mkNew none env fuel).finished = true := by
  obtain ⟨t1, h1⟩ := hlt
  obtain ⟨t2, h2⟩ := hat
  obtain ⟨hreq, hfin, herr⟩ := searchLoop_run env hstatus n fuel SENATE_FILING_SEARCH_PARAMS
    (by
      intro k hk
      simpa [SENATE_FILING_SEARCH_PARAMS] using hne k hk)
    (by simpa [SENATE_FILING_SEARCH_PARAMS] using hend) hfuel
  have hout : (scrape_filing_urls SenateFilingScraper.mkNew none env fuel).searchRequests =
      (searchLoop env fuel SENATE_FILING_SEARCH_PARAMS).requests := by
    simp [scrape_filing_urls, hroot, h1, h2, SenateFilingScraper.mkNew]
  have hout2 : (scrape_filing_urls SenateFilingScraper.mkNew none env fuel).finished =
      (searchLoop env fuel SENATE_FILING_SEARCH_PARAMS).finished := by
    simp [scrape_filing_urls, hroot, h1, h2, SenateFilingScraper.mkNew]
  refine ⟨?_, ?_, ?_⟩
  · rw [hout]
    simpa [SENATE_FILING_SEARCH_PARAMS] using hreq
  · have hl := congrArg List.length hreq
    rw [List.length_map, List.length_map, List.length_range] at hl
    rw [hout]
    exact hl
  · rw [hout2]
    exact hfin

/-- Witness for C1 at a server with 3 pages of rows and then an empty
page: exactly 4 requests, with `start` values 0, 25, 50, 75. -/
theorem C1_pagination_trajectory_witness :
    ((scrape_filing_urls SenateFilingScraper.mkNew none env3 4).searchRequests.map
        fun q => (q.draw, q.start)) = [(1, 0), (2, 25), (3, 50), (4, 75)] ∧
    (scrape_filing_urls SenateFilingScraper.mkNew none env3 4).searchRequests.length = 4 ∧
    (scrape_filing_urls SenateFilingScraper.mkNew none env3 4).finished = true := by
  have h := C1_pagination_trajectory env3 3 4 rfl ⟨"tok1", rfl⟩ ⟨"tok2", rfl⟩
    (fun _ _ => rfl) (by decide) (by decide) (by decide)
  exact ⟨h.1.trans (by decide), h.2.1, h.2.2⟩

/-- The first request of a pagination loop given any fuel carries the
parameters the loop was entered with. -/
theorem searchLoop_head (env : ScrapeEnv) (f : Nat) (p : SearchParams) :
    (searchLoop env (f + 1) p).requests.head? = some p := by
  simp only [searchLoop]
  split
  · rfl
  · split
    · rfl
    · rfl

/-- C5 (counterexample): on the same scraper instance, the cursor and the
filter overlay of a completed scrape carry over into the next scrape's
first search request — after one scrape (one non-empty page, then empty)
with a periodic-transaction filter, the next scrape's first request is
sent with cursor `(draw, start) = (2, 25)` and `report_types = "[11]"`,
not the base cursor `(1, 0)` and default `report_types`. -/
theorem C5_cursor_carryover_counterexample :
    (((scrape_filing_urls
          (scrape_filing_urls SenateFilingScraper.mkNew (some filtersPTR) env1 5).scraper
          none env1 5).searchRequests.map
        fun q => (q.draw, q.start, q.report_types)).head? = some (2, 25, "[11]")) ∧
    (2, 25, ("[11]" : String)) ≠ (1, 0, SENATE_FILING_SEARCH_PARAMS.report_types) :=
  ⟨rfl, by decide⟩

/-- C5 (amended): on a freshly constructed scraper, the first search
request of `scrape_filing_urls` uses the base cursor `(draw, start) =
(1, 0)` and the base default query parameters overlaid only with the
filters passed to this call; cursor state from *previous scrapes* persists
on the instance, so the claim holds for the first scrape of an instance
rather than for every invocation. -/
theorem C5_fresh_scraper_starts_at_base (filters : Option FilingSearchFilters)
    (env : ScrapeEnv) (fuel : Nat)
    (hroot : env.root_status = 200)
    (hlt : ∃ t, env.landing_token = some t)
    (hat : ∃ t, env.agreement_token = some t)
    (hfuel : 0 < fuel) :
    (scrape_filing_urls SenateFilingScraper.mkNew filters env fuel).searchRequests.head? =
      some (match filters with
        | some f => SENATE_FILING_SEARCH_PARAMS.updateWith f.to_search_params
        | none => SENATE_FILING_SEARCH_PARAMS) ∧
    ∀ q,
      (scrape_filing_urls SenateFilingScraper.mkNew filters env fuel).searchRequests.head? =
        some q → q.draw = 1 ∧ q.start = 0 := by
  obtain ⟨t1, h1⟩ := hlt
  obtain ⟨t2, h2⟩ := hat
  cases fuel with
  | zero => omega
  | succ f =>
    have hhead :
        (scrape_filing_urls SenateFilingScraper.mkNew filters env (f + 1)).searchRequests.head? =
        some (match filters with
          | some fl => SENATE_FILING_SEARCH_PARAMS.updateWith fl.to_search_params
          | none => SENATE_FILING_SEARCH_PARAMS) := by
      cases filters with
      | none =>
        simp only [scrape_filing_urls, hroot, h1, h2, SenateFilingScraper.mkNew]
        simpa using searchLoop_head env f SENATE_FILING_SEARCH_PARAMS
      | some fl =>
        simp only [scrape_filing_urls, hroot, h1, h2, SenateFilingScraper.mkNew]
        simpa using searchLoop_head env f
          (SENATE_FILING_SEARCH_PARAMS.updateWith fl.to_search_params)
    refine ⟨hhead, ?_⟩
    intro q hq
    rw [hhead] at hq
    injection hq with hq
    subst hq
    cases filters with
    | none => exact ⟨rfl, rfl⟩
    | some fl => exact ⟨rfl, rfl⟩

/-- Witness for the amended C5 at a fresh scraper with the
periodic-transaction filter. -/
theorem C5_fresh_scraper_starts_at_base_witness :
    (scrape_filing_urls SenateFilingScraper.mkNew (some filtersPTR) env1 5).searchRequests.head? =
      some (SENATE_FILING_SEARCH_PARAMS.updateWith filtersPTR.to_search_params) ∧
    (SENATE_FILING_SEARCH_PARAMS.updateWith filtersPTR.to_search_params).draw = 1 ∧
    (SENATE_FILING_SEARCH_PARAMS.updateWith filtersPTR.to_search_params).start = 0 := by
  have h := C5_fresh_scraper_starts_at_base (some filtersPTR) env1 5 rfl
    ⟨"tok1", rfl⟩ ⟨"tok2", rfl⟩ (by omega)
  exact ⟨h.1, h.2 (SENATE_FILING_SEARCH_PARAMS.updateWith filtersPTR.to_search_params) h.1⟩

end Stocker
